import Mathlib

/-!
Verification development for the Virtual Hand Painting application
(`Hand_traking_module.py` and `virtual_paint.py`).

The embedding below is a faithful shallow translation of the two source
files.  Hand detection itself (MediaPipe) and video acquisition are external
collaborators; their per-frame output is modelled as a `List Landmark` input.
OpenCV raster primitives (`cv2.line`, `cv2.threshold`, `cv2.cvtColor`,
`cv2.bitwise_and`, `cv2.bitwise_or`) are external library calls; they are
modelled below on images represented as total functions from integer pixel
coordinates to pixels, with `cv2.line` painting every pixel whose distance
to the segment is at most half the stroke width, `cv2.cvtColor(BGR2GRAY)`
by OpenCV's fixed-point luma formula, and the threshold / bitwise ops by
their documented pointwise semantics.  Fallible Python indexing
(`lmlist[8]`, which raises `IndexError` when out of range) is translated to
`List.get?` inside the `Option` monad: a `none` result stands for a raised
exception.
-/

/-- One detected hand landmark, as produced by `HandDetector.FindPosition`:
the Python code stores `[id, cx, cy]` triples, with `cx`, `cy` integer pixel
coordinates. -/
structure Landmark where
  id : ℕ
  x : ℤ
  y : ℤ
deriving Repr, DecidableEq, Inhabited

/-- A BGR pixel as stored in OpenCV images (channel order blue, green, red);
each channel is an 8-bit value `0..255`, represented as `ℕ`. -/
structure Pixel where
  b : ℕ
  g : ℕ
  r : ℕ
deriving Repr, DecidableEq, Inhabited

/-- An 8-bit pixel has every channel below 256. -/
def Pixel.valid (p : Pixel) : Prop := p.b < 256 ∧ p.g < 256 ∧ p.r < 256

instance (p : Pixel) : Decidable p.valid := by
  unfold Pixel.valid; infer_instance

/-- A raster image, as a total function from integer pixel coordinates
(first the column `x`, then the row `y`) to pixels.  Out-of-bounds reads of
the underlying arrays never occur in the translated code paths. -/
def Image : Type := ℤ → ℤ → Pixel

/-- Translation of `HandDetector.tipIDs`: landmark ids of the five fingertips
(thumb, index, middle, ring, pinky). -/
def tipIDs : List ℕ := [4, 8, 12, 16, 20]

/-- One iteration of the `for id in range(1, 5)` loop of
`HandDetector.FingersUP`: for a non-thumb fingertip index `tip`, the finger
is up (`1`) when the tip's `y` is strictly below the `y` of the landmark two
indices back.  Python's `lmlist[tip]` raises on a short list; here that is
`none`. -/
def fingerCheckV (lmlist : List Landmark) (tip : ℕ) : Option ℕ := do
  let t ← lmlist[tip]?
  let r ← lmlist[tip - 2]?
  pure (if t.y < r.y then 1 else 0)

/-- Translation of `HandDetector.FingersUP`: thumb by horizontal comparison of landmark
`tipIDs[0] = 4` against landmark `3`, the other four fingers by vertical
comparison of `tipIDs[id]` against `tipIDs[id] - 2` for
`tipIDs = [4, 8, 12, 16, 20]`.  The method reads `self.lmlist` by direct
positional indexing with no count validation; an out-of-range index (raised
`IndexError` in Python) is `none` here. -/
def FingersUP (lmlist : List Landmark) : Option (List ℕ) := do
  let t ← lmlist[4]?
  let r ← lmlist[3]?
  let thumb : ℕ := if t.x < r.x then 1 else 0
  let f1 ← fingerCheckV lmlist 8
  let f2 ← fingerCheckV lmlist 12
  let f3 ← fingerCheckV lmlist 16
  let f4 ← fingerCheckV lmlist 20
  pure [thumb, f1, f2, f3, f4]

/-- Squared-distance capsule test used by the model of `cv2.line`: the pixel
`(qx, qy)` is covered by a stroke of width `w` along the segment
`(x1, y1)–(x2, y2)` when its distance to the segment is at most `w / 2`,
expressed over `ℤ` without division (all comparisons multiplied through by
4 and, in the interior case, by the squared segment length). -/
def coveredB (x1 y1 x2 y2 : ℤ) (w : ℕ) (qx qy : ℤ) : Bool :=
  let vx := x2 - x1
  let vy := y2 - y1
  let ux := qx - x1
  let uy := qy - y1
  let L := vx * vx + vy * vy
  let s := ux * vx + uy * vy
  if L = 0 then
    decide (4 * (ux * ux + uy * uy) ≤ (w : ℤ) * w)
  else if s ≤ 0 then
    decide (4 * (ux * ux + uy * uy) ≤ (w : ℤ) * w)
  else if L ≤ s then
    decide (4 * ((qx - x2) * (qx - x2) + (qy - y2) * (qy - y2)) ≤ (w : ℤ) * w)
  else
    decide (4 * ((ux * ux + uy * uy) * L - s * s) ≤ (w : ℤ) * w * L)

/-- Model of the external `cv2.line(img, (x1,y1), (x2,y2), c, w)` primitive:
paints color `c` on every pixel covered by the width-`w` stroke along the
segment, leaving all other pixels unchanged. -/
def line (img : Image) (x1 y1 x2 y2 : ℤ) (c : Pixel) (w : ℕ) : Image :=
  fun qx qy => if coveredB x1 y1 x2 y2 w qx qy then c else img qx qy

/-- The mutable fields of `VirtualPainter` that the per-frame logic reads or
writes.  `header` is the index into `self.overlay_lst` of the currently
displayed header image (the images themselves are external file assets). -/
structure PainterState where
  header : ℕ
  drawing_color : Pixel
  brush_size : ℕ
  eraser_size : ℕ
  img_canvas : Image
  xp : ℤ
  yp : ℤ

/-- BGR `(0, 0, 0)`: black, the eraser drawing color sentinel. -/
def blackPix : Pixel := ⟨0, 0, 0⟩

/-- BGR `(0, 0, 255)`: red, the initial drawing color. -/
def redPix : Pixel := ⟨0, 0, 255⟩

/-- BGR `(0, 255, 0)`: green. -/
def greenPix : Pixel := ⟨0, 255, 0⟩

/-- BGR `(255, 0, 255)`: pink. -/
def pinkPix : Pixel := ⟨255, 0, 255⟩

/-- The toolbar hit-test of the Selection branch of
`VirtualPainter.process_frame` (`if y1 < 110: if 50 < x1 < 250: ...`):
updates `self.header` and `self.drawing_color` when the index fingertip
`(x1, y1)` lies in the toolbar band and one of the four x-ranges, and leaves
the state unchanged otherwise. -/
def selectTool (s : PainterState) (x1 y1 : ℤ) : PainterState :=
  if y1 < 110 then
    if 50 < x1 ∧ x1 < 250 then
      { s with header := 0, drawing_color := redPix }
    else if 375 < x1 ∧ x1 < 575 then
      { s with header := 1, drawing_color := greenPix }
    else if 700 < x1 ∧ x1 < 900 then
      { s with header := 3, drawing_color := pinkPix }
    else if 1025 < x1 ∧ x1 < 1175 then
      { s with header := 2, drawing_color := blackPix }
    else s
  else s

/-- One canvas mutation issued by the Drawing branch: the `cv2.line` call on
`self.img_canvas` with its endpoints, color and width. -/
structure LineOp where
  x1 : ℤ
  y1 : ℤ
  x2 : ℤ
  y2 : ℤ
  color : Pixel
  width : ℕ
deriving Repr, DecidableEq

/-- The body of `VirtualPainter.process_frame` after the landmark lookups
succeeded: `p8` is `lmlist[8]` (index fingertip), `f1 = fingers[1]`,
`f2 = fingers[2]`.  The two sequential `if`s of the source are translated in
order: Selection (`fingers[1] and fingers[2]`, Python truthiness of the 0/1
entries) zeroes `(xp, yp)` and runs the toolbar hit-test; Drawing
(`fingers[1] and not fingers[2]`) seeds `(xp, yp)` from the fingertip when
it equals the `(0, 0)` sentinel, then draws one canvas line of width
`eraser_size` when `drawing_color == (0,0,0)` and `brush_size` otherwise,
and stores the fingertip back into `(xp, yp)`.  Drawing on the transient
display frame (`cv2.rectangle`, `cv2.circle` and the `cv2.line` on `img`)
is display-only and not part of the persistent state; the returned list
records the canvas mutations. -/
def process_core (s : PainterState) (p8 : Landmark) (f1 f2 : ℕ) :
    PainterState × List LineOp :=
  let s1 := if f1 ≠ 0 ∧ f2 ≠ 0 then
    selectTool { s with xp := 0, yp := 0 } p8.x p8.y
  else s
  if f1 ≠ 0 ∧ f2 = 0 then
    let px := if s1.xp = 0 ∧ s1.yp = 0 then p8.x else s1.xp
    let py := if s1.xp = 0 ∧ s1.yp = 0 then p8.y else s1.yp
    let w := if s1.drawing_color = blackPix then s1.eraser_size else s1.brush_size
    ({ s1 with
        img_canvas := line s1.img_canvas px py p8.x p8.y s1.drawing_color w,
        xp := p8.x, yp := p8.y },
      [⟨px, py, p8.x, p8.y, s1.drawing_color, w⟩])
  else (s1, [])

/-- Translation of `VirtualPainter.process_frame`, restricted to its persistent-state
effects.  The Python guard is only `len(lmlist) != 0`; inside it,
`lmlist[8]`, `lmlist[12]` and the indexing inside `FingersUP` can raise on a
non-empty short list, modelled by `none`.  Returns the new state and the
list of canvas line operations performed. -/
def process_frame (s : PainterState) (lmlist : List Landmark) :
    Option (PainterState × List LineOp) :=
  if lmlist.length ≠ 0 then do
    let p8 ← lmlist[8]?
    let _p12 ← lmlist[12]?
    let fingers ← FingersUP lmlist
    let f1 ← fingers[1]?
    let f2 ← fingers[2]?
    pure (process_core s p8 f1 f2)
  else pure (s, [])

/-- Iterated `process_frame` over a list of landmark frames, as performed by
the `VirtualPainter.run` loop (one call per captured video frame). -/
def runFrames (s : PainterState) (frames : List (List Landmark)) :
    Option PainterState :=
  match frames with
  | [] => some s
  | l :: rest =>
    match process_frame s l with
    | some (s', _) => runFrames s' rest
    | none => none

/-- OpenCV's fixed-point BGR-to-grayscale conversion used by
`cv2.cvtColor(canvas, cv2.COLOR_BGR2GRAY)`:
`Y = (B*1868 + G*9617 + R*4899 + 2^13) >> 14`. -/
def grayOfPixel (p : Pixel) : ℕ :=
  (1868 * p.b + 9617 * p.g + 4899 * p.r + 8192) / 16384

/-- Pointwise semantics of
`cv2.threshold(gray, 50, 255, cv2.THRESH_BINARY_INV)`: a gray value
strictly above the threshold 50 maps to 0, any other value to the maxval
255. -/
def maskVal (g : ℕ) : ℕ := if 50 < g then 0 else 255

/-- The inverse mask computed by `VirtualPainter.combine_images` from the
canvas (`img_gray` thresholded to `img_inverse`), one mask value per pixel
(the `GRAY2BGR` step replicates it onto all three channels). -/
def canvasMask (canvas : Image) (qx qy : ℤ) : ℕ :=
  maskVal (grayOfPixel (canvas qx qy))

/-- The header band overwritten by `img[0:100, 0:1280] = self.header`:
rows `0..99` over columns `0..1279`. -/
def inHeaderBand (qx qy : ℤ) : Prop :=
  0 ≤ qx ∧ qx < 1280 ∧ 0 ≤ qy ∧ qy < 100

instance (qx qy : ℤ) : Decidable (inHeaderBand qx qy) := by
  unfold inHeaderBand; infer_instance

/-- Translation of `VirtualPainter.combine_images`: per pixel,
`(live AND mask) OR canvas` channelwise (bitwise on the 8-bit channel
values), with the top band then overwritten by the current header image. -/
def combine_images (canvas live header : Image) : Image :=
  fun qx qy =>
    if inHeaderBand qx qy then header qx qy
    else
      let m := canvasMask canvas qx qy
      let l := live qx qy
      let c := canvas qx qy
      { b := (l.b &&& m) ||| c.b
        g := (l.g &&& m) ||| c.g
        r := (l.r &&& m) ||| c.r }

/-! ## Concrete frames and states used in counterexamples and witnesses -/

/-- A malformed, non-empty landmark frame of 5 entries (ids 0–4, all at the
origin): fewer than the 21 landmarks of a full hand. -/
def lm5 : List Landmark := [⟨0, 0, 0⟩, ⟨1, 0, 0⟩, ⟨2, 0, 0⟩, ⟨3, 0, 0⟩, ⟨4, 0, 0⟩]

/-- A full 21-landmark Drawing frame: index fingertip (landmark 8) at
`(500, 500)` with its reference landmark 6 below it (larger `y`), middle
finger down, every other landmark at the origin.  `FingersUP` yields
`[0, 1, 0, 0, 0]`. -/
def lmDraw : List Landmark :=
  [⟨0, 0, 0⟩, ⟨1, 0, 0⟩, ⟨2, 0, 0⟩, ⟨3, 0, 0⟩, ⟨4, 0, 0⟩, ⟨5, 0, 0⟩,
   ⟨6, 0, 600⟩, ⟨7, 0, 0⟩, ⟨8, 500, 500⟩, ⟨9, 0, 0⟩, ⟨10, 0, 0⟩, ⟨11, 0, 0⟩,
   ⟨12, 0, 0⟩, ⟨13, 0, 0⟩, ⟨14, 0, 0⟩, ⟨15, 0, 0⟩, ⟨16, 0, 0⟩, ⟨17, 0, 0⟩,
   ⟨18, 0, 0⟩, ⟨19, 0, 0⟩, ⟨20, 0, 0⟩]

/-- A 21-landmark Drawing frame whose index fingertip is exactly at the
pixel `(0, 0)`.  `FingersUP` yields `[0, 1, 0, 0, 0]`. -/
def lmDraw00 : List Landmark :=
  [⟨0, 0, 0⟩, ⟨1, 0, 0⟩, ⟨2, 0, 0⟩, ⟨3, 0, 0⟩, ⟨4, 0, 0⟩, ⟨5, 0, 0⟩,
   ⟨6, 0, 600⟩, ⟨7, 0, 0⟩, ⟨8, 0, 0⟩, ⟨9, 0, 0⟩, ⟨10, 0, 0⟩, ⟨11, 0, 0⟩,
   ⟨12, 0, 0⟩, ⟨13, 0, 0⟩, ⟨14, 0, 0⟩, ⟨15, 0, 0⟩, ⟨16, 0, 0⟩, ⟨17, 0, 0⟩,
   ⟨18, 0, 0⟩, ⟨19, 0, 0⟩, ⟨20, 0, 0⟩]

/-- A 21-landmark Selection frame: index fingertip at `(150, 50)` and middle
fingertip at `(200, 50)`, both above their reference landmarks.  `FingersUP`
yields `[0, 1, 1, 0, 0]`. -/
def lmSel : List Landmark :=
  [⟨0, 0, 0⟩, ⟨1, 0, 0⟩, ⟨2, 0, 0⟩, ⟨3, 0, 0⟩, ⟨4, 0, 0⟩, ⟨5, 0, 0⟩,
   ⟨6, 0, 600⟩, ⟨7, 0, 0⟩, ⟨8, 150, 50⟩, ⟨9, 0, 0⟩, ⟨10, 0, 600⟩, ⟨11, 0, 0⟩,
   ⟨12, 200, 50⟩, ⟨13, 0, 0⟩, ⟨14, 0, 0⟩, ⟨15, 0, 0⟩, ⟨16, 0, 0⟩, ⟨17, 0, 0⟩,
   ⟨18, 0, 0⟩, ⟨19, 0, 0⟩, ⟨20, 0, 0⟩]

/-- A painter state mid-stroke: pointer at `(100, 100)`, red brush, the
initial sizes (`brush_size = 8`, `eraser_size = 50`), blank canvas. -/
def s100 : PainterState :=
  { header := 0, drawing_color := redPix, brush_size := 8, eraser_size := 50,
    img_canvas := fun _ _ => blackPix, xp := 100, yp := 100 }

/-- State `s100` after a Selection frame with fingertip `(150, 50)`: pointer
zeroed, red entry selected. -/
def s100sel : PainterState :=
  { s100 with xp := 0, yp := 0, header := 0, drawing_color := redPix }

/-- The initial painter state of `VirtualPainter.__init__` (with the pointer
sentinel `(0, 0)`): red brush, sizes 8/50, all-zero canvas. -/
def sZero : PainterState :=
  { header := 0, drawing_color := redPix, brush_size := 8, eraser_size := 50,
    img_canvas := fun _ _ => blackPix, xp := 0, yp := 0 }

/-- A state whose stored previous point is `(0, 300)`: one coordinate zero,
not the `(0, 0)` sentinel. -/
def sY : PainterState := { sZero with yp := 300 }

/-- State `sZero` after a Drawing frame with fingertip `(500, 500)`: the seeded
degenerate segment has been rendered and the pointer updated. -/
def sD : PainterState :=
  { sZero with
      img_canvas := line sZero.img_canvas 500 500 500 500 redPix 8,
      xp := 500, yp := 500 }

/-- State `sY` after a Drawing frame whose fingertip is exactly `(0, 0)`: the
stroke extended from `(0, 300)` to the origin and the stored point became
the `(0, 0)` sentinel. -/
def sY1 : PainterState :=
  { sY with
      img_canvas := line sY.img_canvas 0 300 0 0 redPix 8,
      xp := 0, yp := 0 }

/-- State `sY1` after a further Drawing frame with fingertip `(500, 500)`: the
pointer was re-seeded, so only a degenerate segment was rendered. -/
def sY2 : PainterState :=
  { sY1 with
      img_canvas := line sY1.img_canvas 500 500 500 500 redPix 8,
      xp := 500, yp := 500 }

/-- State `sY` after a Drawing frame with fingertip `(500, 500)`: the stored point
`(0, 300)` is valid, so the stroke extends from it. -/
def sY2b : PainterState :=
  { sY with
      img_canvas := line sY.img_canvas 0 300 500 500 redPix 8,
      xp := 500, yp := 500 }

/-- An all-black (never painted) canvas. -/
def canvasBlack : Image := fun _ _ => blackPix

/-- A canvas uniformly painted red (grayscale intensity 76). -/
def canvasRed : Image := fun _ _ => redPix

/-- A pixel of grayscale intensity exactly 50 (pure green 85). -/
def pix50 : Pixel := ⟨0, 85, 0⟩

/-- A canvas whose pixels all have grayscale intensity exactly 50. -/
def canvas50 : Image := fun _ _ => pix50

/-- A live camera frame with constant pixel value `(10, 20, 30)`. -/
def liveImg : Image := fun _ _ => ⟨10, 20, 30⟩

/-! ## Helper lemmas -/

/-- Masking an 8-bit value with the all-ones mask 255 is the identity. -/
theorem and_255_of_lt {a : ℕ} (h : a < 256) : a &&& 255 = a := by
  have h2 : a < 2 ^ 8 := by norm_num; exact h
  have := Nat.and_pow_two_sub_one_of_lt_two_pow h2
  norm_num at this
  exact this

/-- Reduction lemma: `process_frame` reduces to `process_core` once the landmark and finger
lookups succeed. -/
theorem process_frame_eq (s : PainterState) (l : List Landmark)
    (p8 p12 : Landmark) (f : List ℕ) (f1 f2 : ℕ)
    (h8 : l[8]? = some p8) (h12 : l[12]? = some p12)
    (hf : FingersUP l = some f)
    (h1 : f[1]? = some f1) (h2 : f[2]? = some f2) :
    process_frame s l = some (process_core s p8 f1 f2) := by
  have hne : l.length ≠ 0 := by
    intro h0
    rw [List.length_eq_zero] at h0
    subst h0
    simp at h8
  unfold process_frame
  rw [if_pos hne]
  simp [h8, h12, hf, h1, h2]

/-- The toolbar hit-test touches only `header` and `drawing_color`. -/
theorem selectTool_frame (s : PainterState) (x1 y1 : ℤ) :
    (selectTool s x1 y1).img_canvas = s.img_canvas ∧
    (selectTool s x1 y1).xp = s.xp ∧ (selectTool s x1 y1).yp = s.yp ∧
    (selectTool s x1 y1).brush_size = s.brush_size ∧
    (selectTool s x1 y1).eraser_size = s.eraser_size := by
  unfold selectTool
  split_ifs <;> exact ⟨rfl, rfl, rfl, rfl, rfl⟩

/-- At a mask-background pixel outside the header band, compositing ORs the
live pixel with the canvas pixel. -/
theorem combine_bg (canvas live header : Image) (qx qy : ℤ)
    (hband : ¬ inHeaderBand qx qy) (hm : canvasMask canvas qx qy = 255)
    (hlive : (live qx qy).valid) :
    combine_images canvas live header qx qy =
      { b := (live qx qy).b ||| (canvas qx qy).b,
        g := (live qx qy).g ||| (canvas qx qy).g,
        r := (live qx qy).r ||| (canvas qx qy).r } := by
  unfold combine_images
  rw [if_neg hband]
  obtain ⟨hb, hg, hr⟩ := hlive
  simp only [hm, and_255_of_lt hb, and_255_of_lt hg, and_255_of_lt hr]

/-- At a mask-foreground pixel outside the header band, compositing yields
exactly the canvas pixel. -/
theorem combine_fg (canvas live header : Image) (qx qy : ℤ)
    (hband : ¬ inHeaderBand qx qy) (hm : canvasMask canvas qx qy = 0) :
    combine_images canvas live header qx qy = canvas qx qy := by
  unfold combine_images
  rw [if_neg hband]
  simp only [hm, Nat.and_zero, Nat.zero_or]

/-- Stroke coverage is monotone in the stroke width. -/
theorem coveredB_mono {x1 y1 x2 y2 : ℤ} {w w' : ℕ} (hw : w ≤ w')
    {qx qy : ℤ} (h : coveredB x1 y1 x2 y2 w qx qy = true) :
    coveredB x1 y1 x2 y2 w' qx qy = true := by
  have hsq : (w : ℤ) * w ≤ (w' : ℤ) * w' := by
    have hc : (w : ℤ) ≤ w' := by exact_mod_cast hw
    nlinarith [Int.ofNat_nonneg w]
  simp only [coveredB] at h ⊢
  split_ifs at h ⊢ with h1 h2 h3
  · exact decide_eq_true (le_trans (of_decide_eq_true h) hsq)
  · exact decide_eq_true (le_trans (of_decide_eq_true h) hsq)
  · exact decide_eq_true (le_trans (of_decide_eq_true h) hsq)
  · have hL0 : (0:ℤ) ≤ (x2 - x1) * (x2 - x1) + (y2 - y1) * (y2 - y1) :=
      add_nonneg (mul_self_nonneg _) (mul_self_nonneg _)
    have hL : (0:ℤ) < (x2 - x1) * (x2 - x1) + (y2 - y1) * (y2 - y1) :=
      lt_of_le_of_ne hL0 (Ne.symm h1)
    have hstep := mul_le_mul_of_nonneg_right hsq (le_of_lt hL)
    exact decide_eq_true (le_trans (of_decide_eq_true h) hstep)

/-- On a frame of at most 20 landmarks, the pinky check of `FingersUP`
raises (its `lmlist[20]` access is out of range). -/
theorem fingerCheckV_20_none {l : List Landmark} (h : l.length ≤ 20) :
    fingerCheckV l 20 = none := by
  unfold fingerCheckV
  rw [List.getElem?_eq_none (by omega)]
  rfl

/-- Success bound: `FingersUP` can only return a finger list when the frame has at least
21 landmarks (it indexes up to `lmlist[20]`). -/
theorem FingersUP_length {l : List Landmark} {f : List ℕ}
    (hf : FingersUP l = some f) : 20 < l.length := by
  by_contra hlen
  push_neg at hlen
  unfold FingersUP at hf
  cases h4 : l[4]? with
  | none => rw [h4] at hf; simp at hf
  | some t4 =>
    rw [h4] at hf
    cases h3 : l[3]? with
    | none => rw [h3] at hf; simp at hf
    | some t3 =>
      rw [h3] at hf
      cases hc8 : fingerCheckV l 8 with
      | none => rw [hc8] at hf; simp at hf
      | some v8 =>
        rw [hc8] at hf
        cases hc12 : fingerCheckV l 12 with
        | none => rw [hc12] at hf; simp at hf
        | some v12 =>
          rw [hc12] at hf
          cases hc16 : fingerCheckV l 16 with
          | none => rw [hc16] at hf; simp at hf
          | some v16 =>
            rw [hc16] at hf
            rw [fingerCheckV_20_none hlen] at hf
            simp at hf

/-- Selection frame (`fingers[1]` and `fingers[2]` truthy): the state is the
toolbar hit-test applied after zeroing the pointer, and no canvas line is
drawn. -/
theorem process_core_sel (s : PainterState) (p8 : Landmark) {f1 f2 : ℕ}
    (ha : f1 ≠ 0) (hb : f2 ≠ 0) :
    process_core s p8 f1 f2 =
      (selectTool { s with xp := 0, yp := 0 } p8.x p8.y, []) := by
  unfold process_core
  rw [if_neg (show ¬(f1 ≠ 0 ∧ f2 = 0) from fun hh => hb hh.2), if_pos ⟨ha, hb⟩]

/-- Drawing frame (`fingers[1]` truthy, `fingers[2] = 0`): one canvas line
from the (possibly re-seeded) previous point to the fingertip, pointer
updated to the fingertip. -/
theorem process_core_draw (s : PainterState) (p8 : Landmark) {f1 : ℕ}
    (ha : f1 ≠ 0) :
    process_core s p8 f1 0 =
      ({ s with
          img_canvas := line s.img_canvas
            (if s.xp = 0 ∧ s.yp = 0 then p8.x else s.xp)
            (if s.xp = 0 ∧ s.yp = 0 then p8.y else s.yp)
            p8.x p8.y s.drawing_color
            (if s.drawing_color = blackPix then s.eraser_size else s.brush_size),
          xp := p8.x, yp := p8.y },
        [⟨if s.xp = 0 ∧ s.yp = 0 then p8.x else s.xp,
          if s.xp = 0 ∧ s.yp = 0 then p8.y else s.yp, p8.x, p8.y,
          s.drawing_color,
          if s.drawing_color = blackPix then s.eraser_size else s.brush_size⟩]) := by
  unfold process_core
  rw [if_neg (show ¬(f1 ≠ 0 ∧ (0:ℕ) ≠ 0) from fun hh => hh.2 rfl),
     if_pos ⟨ha, rfl⟩]

/-- Frame with `fingers[1] = 0`: neither gesture matches, the state is
returned untouched and no canvas line is drawn. -/
theorem process_core_idle (s : PainterState) (p8 : Landmark) {f2 : ℕ} :
    process_core s p8 0 f2 = (s, []) := by
  unfold process_core
  rw [if_neg (show ¬((0:ℕ) ≠ 0 ∧ f2 ≠ 0) from fun hh => hh.1 rfl),
     if_neg (show ¬((0:ℕ) ≠ 0 ∧ f2 = 0) from fun hh => hh.1 rfl)]

/-- A landmark frame on which the two-finger Selection condition holds:
the classifier succeeds and both `fingers[1]` and `fingers[2]` are truthy. -/
def selFrame (l : List Landmark) : Prop :=
  ∃ f f1 f2, FingersUP l = some f ∧ f[1]? = some f1 ∧ f[2]? = some f2 ∧
    f1 ≠ 0 ∧ f2 ≠ 0

/-- A Selection frame never mutates the canvas and issues no canvas line
operation. -/
theorem process_sel (s : PainterState) (l : List Landmark) (hl : selFrame l)
    (s' : PainterState) (ops : List LineOp)
    (hp : process_frame s l = some (s', ops)) :
    s'.img_canvas = s.img_canvas ∧ ops = [] := by
  obtain ⟨f, f1, f2, hf, h1, h2, ha, hb⟩ := hl
  have hlen := FingersUP_length hf
  have h8 : l[8]? = some (l.get ⟨8, by omega⟩) := List.getElem?_eq_getElem (by omega)
  have h12 : l[12]? = some (l.get ⟨12, by omega⟩) := List.getElem?_eq_getElem (by omega)
  rw [process_frame_eq s l _ _ f f1 f2 h8 h12 hf h1 h2,
      process_core_sel s _ ha hb, Option.some.injEq, Prod.mk.injEq] at hp
  obtain ⟨hs, hops⟩ := hp
  rw [← hs, ← hops]
  exact ⟨(selectTool_frame _ _ _).1, rfl⟩

/-- Over any run of consecutive Selection frames, the canvas is unchanged. -/
theorem runFrames_sel (frames : List (List Landmark)) :
    ∀ s s' : PainterState, (∀ l ∈ frames, selFrame l) →
      runFrames s frames = some s' → s'.img_canvas = s.img_canvas := by
  induction frames with
  | nil =>
    intro s s' _ hrun
    simp only [runFrames, Option.some.injEq] at hrun
    rw [← hrun]
  | cons l rest ih =>
    intro s s' hsel hrun
    unfold runFrames at hrun
    cases hp : process_frame s l with
    | none => rw [hp] at hrun; cases hrun
    | some p =>
      obtain ⟨s1, ops⟩ := p
      rw [hp] at hrun
      have hstep := process_sel s l (hsel l (List.mem_cons_self l rest)) s1 ops hp
      have htail := ih s1 s' (fun l' hl' => hsel l' (List.mem_cons_of_mem l hl')) hrun
      rw [htail, hstep.1]

/-- C1 (code bug): the spec requires the classifier to validate the landmark
count before indexing and to degrade to Idle on a frame with fewer than 21
entries, but on the concrete 5-landmark frame `lm5` the classifier's
`lmlist[8]` access is out of range (a raised `IndexError`, `none` here), and
`process_frame` — whose guard is only `len(lmlist) != 0` — propagates the
error instead of yielding an Idle no-op. -/
theorem claim1_short_frame_oob :
    FingersUP lm5 = none ∧ ∀ s : PainterState, process_frame s lm5 = none :=
  ⟨rfl, fun _ => rfl⟩

/-- C2 counterexample: with the pointer at `(100, 100)`, an empty landmark
frame leaves `(xp, yp) = (100, 100)` — it is not zeroed — and the very next
Drawing frame (fingertip `(500, 500)`) draws a canvas stroke segment
connecting the two fingertip positions separated by the empty frame. -/
theorem claim2_counterexample :
    process_frame s100 [] = some (s100, []) ∧
    s100.xp = 100 ∧ s100.yp = 100 ∧
    (process_frame s100 lmDraw).map Prod.snd =
      some [⟨100, 100, 500, 500, redPix, 8⟩] :=
  ⟨rfl, rfl, rfl, rfl⟩

/-- C2 amended: the pointer `(xp, yp)` is zeroed only on Selection frames
(index and middle up); an empty landmark frame or a frame matching neither
gesture (`fingers[1] = 0`) leaves the whole state — the pointer included —
unchanged, so a later stroke can connect fingertip positions separated by
such a frame (a jump segment is avoided only when the stored point already
equals the `(0, 0)` sentinel). -/
theorem claim2_amended (s : PainterState) :
    (process_frame s [] = some (s, [])) ∧
    (∀ (l : List Landmark) (f : List ℕ) (p8 p12 : Landmark) (f1 f2 : ℕ)
      (s' : PainterState) (ops : List LineOp),
      l[8]? = some p8 → l[12]? = some p12 → FingersUP l = some f →
      f[1]? = some f1 → f[2]? = some f2 → f1 ≠ 0 → f2 ≠ 0 →
      process_frame s l = some (s', ops) →
      s'.xp = 0 ∧ s'.yp = 0 ∧ ops = []) ∧
    (∀ (l : List Landmark) (f : List ℕ) (p8 p12 : Landmark) (f2 : ℕ)
      (s' : PainterState) (ops : List LineOp),
      l[8]? = some p8 → l[12]? = some p12 → FingersUP l = some f →
      f[1]? = some 0 → f[2]? = some f2 →
      process_frame s l = some (s', ops) → s' = s ∧ ops = []) := by
  refine ⟨rfl, ?_, ?_⟩
  · intro l f p8 p12 f1 f2 s' ops h8 h12 hf h1 h2 ha hb hp
    rw [process_frame_eq s l p8 p12 f f1 f2 h8 h12 hf h1 h2,
        process_core_sel s p8 ha hb, Option.some.injEq, Prod.mk.injEq] at hp
    obtain ⟨hs, hops⟩ := hp
    rw [← hs, ← hops]
    exact ⟨(selectTool_frame _ _ _).2.1, (selectTool_frame _ _ _).2.2.1, rfl⟩
  · intro l f p8 p12 f2 s' ops h8 h12 hf h1 h2 hp
    rw [process_frame_eq s l p8 p12 f 0 f2 h8 h12 hf h1 h2,
        process_core_idle s p8, Option.some.injEq, Prod.mk.injEq] at hp
    exact ⟨hp.1.symm, hp.2.symm⟩

/-- C2 amended, witness: instantiated at the mid-stroke state `s100` and the
Selection frame `lmSel`. -/
theorem claim2_amended_witness :
    s100sel.xp = 0 ∧ s100sel.yp = 0 ∧ ([] : List LineOp) = [] :=
  (claim2_amended s100).2.1 lmSel [0, 1, 1, 0, 0] ⟨8, 150, 50⟩ ⟨12, 200, 50⟩
    1 1 s100sel [] rfl rfl rfl rfl rfl (by decide) (by decide) rfl

/-- C3 counterexample: a canvas pixel of grayscale intensity exactly 50
(e.g. pure green 85) receives mask value 255 in the compositor, not 0 as the
claim states for intensities at or above the cutoff. -/
theorem claim3_counterexample :
    grayOfPixel (canvas50 0 200) = 50 ∧ canvasMask canvas50 0 200 = 255 ∧
    canvasMask canvas50 0 200 ≠ 0 := by
  refine ⟨rfl, rfl, ?_⟩
  decide

/-- C3 amended: `cv2.threshold(.., 50, 255, THRESH_BINARY_INV)` zeroes a
pixel only for intensity strictly above 50; every canvas pixel of grayscale
intensity at most 50 — exactly 50 included — gets mask value 255
(background), and every pixel of intensity strictly above 50 gets mask value
0 (foreground). -/
theorem claim3_amended (canvas : Image) (qx qy : ℤ) :
    (grayOfPixel (canvas qx qy) ≤ 50 → canvasMask canvas qx qy = 255) ∧
    (50 < grayOfPixel (canvas qx qy) → canvasMask canvas qx qy = 0) := by
  unfold canvasMask maskVal
  refine ⟨fun h => ?_, fun h => ?_⟩
  · rw [if_neg (by omega)]
  · rw [if_pos h]

/-- C3 amended, witness: an intensity-50 canvas maps to background 255, a
red canvas (intensity 76) to foreground 0. -/
theorem claim3_amended_witness :
    canvasMask canvas50 0 200 = 255 ∧ canvasMask canvasRed 0 200 = 0 :=
  ⟨(claim3_amended canvas50 0 200).1 (by decide),
   (claim3_amended canvasRed 0 200).2 (by decide)⟩

/-- C4: outside the header band, a never-painted (all-zero) canvas pixel
passes the live camera pixel through unchanged, and a pixel the mask
classifies as foreground shows exactly the stored canvas color, whatever the
live frame holds there. -/
theorem claim4_composite_passthrough (canvas live header : Image)
    (qx qy : ℤ) (hband : ¬ inHeaderBand qx qy) :
    (canvas qx qy = blackPix → (live qx qy).valid →
      combine_images canvas live header qx qy = live qx qy) ∧
    (canvasMask canvas qx qy = 0 →
      combine_images canvas live header qx qy = canvas qx qy) := by
  refine ⟨fun hc hlive => ?_, fun hm => ?_⟩
  · have hm : canvasMask canvas qx qy = 255 := by
      unfold canvasMask
      rw [hc]
      rfl
    rw [combine_bg canvas live header qx qy hband hm hlive, hc]
    simp [blackPix, Nat.or_zero]
  · exact combine_fg canvas live header qx qy hband hm

/-- C4 witness: at pixel `(5, 200)` an unpainted canvas shows the live frame
and a red-painted canvas shows red. -/
theorem claim4_witness :
    combine_images canvasBlack liveImg canvasBlack 5 200 = liveImg 5 200 ∧
    combine_images canvasRed liveImg canvasBlack 5 200 = canvasRed 5 200 :=
  ⟨(claim4_composite_passthrough canvasBlack liveImg canvasBlack 5 200
      (by decide)).1 rfl (by decide),
   (claim4_composite_passthrough canvasRed liveImg canvasBlack 5 200
      (by decide)).2 (by decide)⟩

/-- C5: on any full 21-landmark frame the classifier marks each non-thumb
finger (tips 8, 12, 16, 20) up exactly when the tip's `y` is strictly less
than the `y` of the landmark two indices back, and the thumb (tip 4) up
exactly when the tip's `x` is strictly on the extended side of landmark 3
(horizontal comparison); the result is a pure per-frame function of the
landmark list, with no smoothing or history. -/
theorem claim5_classifier_characterization (l : List Landmark)
    (h : l.length = 21) :
    FingersUP l = some [
      if (l.get ⟨4, by omega⟩).x < (l.get ⟨3, by omega⟩).x then 1 else 0,
      if (l.get ⟨8, by omega⟩).y < (l.get ⟨6, by omega⟩).y then 1 else 0,
      if (l.get ⟨12, by omega⟩).y < (l.get ⟨10, by omega⟩).y then 1 else 0,
      if (l.get ⟨16, by omega⟩).y < (l.get ⟨14, by omega⟩).y then 1 else 0,
      if (l.get ⟨20, by omega⟩).y < (l.get ⟨18, by omega⟩).y then 1 else 0] := by
  unfold FingersUP fingerCheckV
  rw [List.getElem?_eq_getElem (by omega : 4 < l.length),
      List.getElem?_eq_getElem (by omega : 3 < l.length),
      List.getElem?_eq_getElem (by omega : 8 < l.length),
      List.getElem?_eq_getElem (by omega : 6 < l.length),
      List.getElem?_eq_getElem (by omega : 12 < l.length),
      List.getElem?_eq_getElem (by omega : 10 < l.length),
      List.getElem?_eq_getElem (by omega : 16 < l.length),
      List.getElem?_eq_getElem (by omega : 14 < l.length),
      List.getElem?_eq_getElem (by omega : 20 < l.length),
      List.getElem?_eq_getElem (by omega : 18 < l.length)]
  rfl

/-- C5 witness: on the concrete frame `lmDraw` (index tip above its
reference, all other tips at or below theirs) the classifier returns
`[0, 1, 0, 0, 0]`. -/
theorem claim5_witness : FingersUP lmDraw = some [0, 1, 0, 0, 0] := by
  rw [claim5_classifier_characterization lmDraw (by decide)]
  rfl

/-- C6: on a Selection frame, the brush color and header index are replaced
together with the matched toolbar entry exactly when the index fingertip's
`y` is in the toolbar band (`y < 110`) and its `x` lies strictly inside one
of the four ranges 50–250, 375–575, 700–900, 1025–1175; in the band but
outside every range, or below the band, both are left unchanged, and no
canvas line is drawn either way. -/
theorem claim6_toolbar_hit_test (s : PainterState) (l : List Landmark)
    (p8 p12 : Landmark) (f : List ℕ) (f1 f2 : ℕ)
    (h8 : l[8]? = some p8) (h12 : l[12]? = some p12)
    (hf : FingersUP l = some f) (h1 : f[1]? = some f1) (h2 : f[2]? = some f2)
    (ha : f1 ≠ 0) (hb : f2 ≠ 0)
    (s' : PainterState) (ops : List LineOp)
    (hp : process_frame s l = some (s', ops)) :
    ops = [] ∧
    (p8.y < 110 →
      ((50 < p8.x ∧ p8.x < 250) →
        s'.header = 0 ∧ s'.drawing_color = redPix) ∧
      ((375 < p8.x ∧ p8.x < 575) →
        s'.header = 1 ∧ s'.drawing_color = greenPix) ∧
      ((700 < p8.x ∧ p8.x < 900) →
        s'.header = 3 ∧ s'.drawing_color = pinkPix) ∧
      ((1025 < p8.x ∧ p8.x < 1175) →
        s'.header = 2 ∧ s'.drawing_color = blackPix) ∧
      (¬(50 < p8.x ∧ p8.x < 250) → ¬(375 < p8.x ∧ p8.x < 575) →
       ¬(700 < p8.x ∧ p8.x < 900) → ¬(1025 < p8.x ∧ p8.x < 1175) →
        s'.header = s.header ∧ s'.drawing_color = s.drawing_color)) ∧
    (¬ p8.y < 110 →
      s'.header = s.header ∧ s'.drawing_color = s.drawing_color) := by
  rw [process_frame_eq s l p8 p12 f f1 f2 h8 h12 hf h1 h2,
      process_core_sel s p8 ha hb, Option.some.injEq, Prod.mk.injEq] at hp
  obtain ⟨hs, hops⟩ := hp
  rw [← hs, ← hops]
  refine ⟨rfl, fun hy => ?_, fun hy => ?_⟩
  · refine ⟨fun hr => ?_, fun hr => ?_, fun hr => ?_, fun hr => ?_,
      fun hn1 hn2 hn3 hn4 => ?_⟩ <;> unfold selectTool <;> rw [if_pos hy]
    · rw [if_pos hr]
      exact ⟨rfl, rfl⟩
    · rw [if_neg (by omega), if_pos hr]
      exact ⟨rfl, rfl⟩
    · rw [if_neg (by omega), if_neg (by omega), if_pos hr]
      exact ⟨rfl, rfl⟩
    · rw [if_neg (by omega), if_neg (by omega), if_neg (by omega), if_pos hr]
      exact ⟨rfl, rfl⟩
    · rw [if_neg hn1, if_neg hn2, if_neg hn3, if_neg hn4]
      exact ⟨rfl, rfl⟩
  · unfold selectTool
    rw [if_neg hy]
    exact ⟨rfl, rfl⟩

/-- C6 witness: Selection frame with index fingertip `(150, 50)` — inside
the band and the first range — selects the red entry and header 0. -/
theorem claim6_witness : s100sel.header = 0 ∧ s100sel.drawing_color = redPix :=
  ((claim6_toolbar_hit_test s100 lmSel ⟨8, 150, 50⟩ ⟨12, 200, 50⟩
      [0, 1, 1, 0, 0] 1 1 rfl rfl rfl rfl rfl (by decide) (by decide)
      s100sel [] rfl).2.1 (by decide)).1 (by decide)

/-- C7: over any sequence of frames on which the two-finger Selection
condition (index and middle up) holds, the persistent canvas is never
mutated — the selection rectangle is a display-only effect. -/
theorem claim7_selection_never_draws (frames : List (List Landmark))
    (hsel : ∀ l ∈ frames, selFrame l) (s s' : PainterState)
    (hrun : runFrames s frames = some s') :
    s'.img_canvas = s.img_canvas :=
  runFrames_sel frames s s' hsel hrun

/-- C7 witness: two consecutive Selection frames starting from the
mid-stroke state `s100` leave the canvas untouched. -/
theorem claim7_witness : s100sel.img_canvas = s100.img_canvas := by
  have hsel : selFrame lmSel :=
    ⟨[0, 1, 1, 0, 0], 1, 1, rfl, rfl, rfl, one_ne_zero, one_ne_zero⟩
  exact claim7_selection_never_draws [lmSel, lmSel]
    (by
      intro l hl
      rcases List.mem_cons.mp hl with h | h
      · rw [h]; exact hsel
      · rcases List.mem_cons.mp h with h' | h'
        · rw [h']; exact hsel
        · cases h')
    s100 s100sel rfl

/-- C8: on a Drawing frame whose incoming pointer state is the invalid
`(0, 0)` sentinel, the pointer is first seeded with the current fingertip,
so the single rendered canvas segment has its start point equal to its end
point — no line from the origin to the fingertip. -/
theorem claim8_seed_on_invalid_pointer (s : PainterState)
    (l : List Landmark) (p8 p12 : Landmark) (f : List ℕ) (f1 : ℕ)
    (h8 : l[8]? = some p8) (h12 : l[12]? = some p12)
    (hf : FingersUP l = some f) (h1 : f[1]? = some f1) (h2 : f[2]? = some 0)
    (ha : f1 ≠ 0) (hx : s.xp = 0) (hy : s.yp = 0)
    (s' : PainterState) (ops : List LineOp)
    (hp : process_frame s l = some (s', ops)) :
    ops = [⟨p8.x, p8.y, p8.x, p8.y, s.drawing_color,
      if s.drawing_color = blackPix then s.eraser_size else s.brush_size⟩] ∧
    s'.img_canvas = line s.img_canvas p8.x p8.y p8.x p8.y s.drawing_color
      (if s.drawing_color = blackPix then s.eraser_size else s.brush_size) := by
  rw [process_frame_eq s l p8 p12 f f1 0 h8 h12 hf h1 h2,
      process_core_draw s p8 ha, Option.some.injEq, Prod.mk.injEq] at hp
  obtain ⟨hs, hops⟩ := hp
  rw [← hs, ← hops]
  simp [hx, hy]

/-- C8 witness: from the initial state (sentinel pointer) a Drawing frame
with fingertip `(500, 500)` yields the degenerate segment
`(500,500) → (500,500)`. -/
theorem claim8_witness :
    [(⟨500, 500, 500, 500, redPix, 8⟩ : LineOp)] =
      [⟨500, 500, 500, 500, sZero.drawing_color,
        if sZero.drawing_color = blackPix then sZero.eraser_size
        else sZero.brush_size⟩] ∧
    sD.img_canvas = line sZero.img_canvas 500 500 500 500 sZero.drawing_color
      (if sZero.drawing_color = blackPix then sZero.eraser_size
       else sZero.brush_size) :=
  claim8_seed_on_invalid_pointer sZero lmDraw ⟨8, 500, 500⟩ ⟨12, 0, 0⟩
    [0, 1, 0, 0, 0] 1 rfl rfl rfl rfl rfl (by decide) rfl rfl
    sD [⟨500, 500, 500, 500, redPix, 8⟩] rfl

/-- C9: after drawing a stroke of width `wb` and then the eraser stroke
(erase color black, any width `we ≥ wb`) along the identical path, every
pixel covered by the original stroke holds black, is classified background
(mask 255) by the compositor, and passes the live frame through again. -/
theorem claim9_erase_roundtrip (canvas : Image) (x1 y1 x2 y2 : ℤ) (c : Pixel)
    (wb we : ℕ) (hw : wb ≤ we) (qx qy : ℤ)
    (hcov : coveredB x1 y1 x2 y2 wb qx qy = true)
    (live header : Image) (hlive : (live qx qy).valid)
    (hband : ¬ inHeaderBand qx qy) :
    line (line canvas x1 y1 x2 y2 c wb) x1 y1 x2 y2 blackPix we qx qy =
      blackPix ∧
    canvasMask (line (line canvas x1 y1 x2 y2 c wb) x1 y1 x2 y2 blackPix we)
      qx qy = 255 ∧
    combine_images (line (line canvas x1 y1 x2 y2 c wb) x1 y1 x2 y2
      blackPix we) live header qx qy = live qx qy := by
  have hcov' := coveredB_mono hw hcov
  have h1 : line (line canvas x1 y1 x2 y2 c wb) x1 y1 x2 y2 blackPix we
      qx qy = blackPix := by
    unfold line
    simp only [hcov', if_true]
  have hm : canvasMask (line (line canvas x1 y1 x2 y2 c wb) x1 y1 x2 y2
      blackPix we) qx qy = 255 := by
    unfold canvasMask
    rw [h1]
    rfl
  refine ⟨h1, hm, ?_⟩
  rw [combine_bg _ live header qx qy hband hm hlive, h1]
  simp [blackPix, Nat.or_zero]

/-- C9 witness: a red stroke of width 8 from `(200, 200)` to `(300, 200)`
erased at width 50 along the same path; the covered pixel `(250, 203)` again
shows the live frame. -/
theorem claim9_witness :
    combine_images (line (line canvasBlack 200 200 300 200 redPix 8)
      200 200 300 200 blackPix 50) liveImg canvasBlack 250 203 =
      liveImg 250 203 :=
  (claim9_erase_roundtrip canvasBlack 200 200 300 200 redPix 8 50 (by decide)
    250 203 (by decide) liveImg canvasBlack (by decide) (by decide)).2.2

/-- C10: the pair `(0, 0)` is overloaded as the pointer-invalid sentinel.
If a Drawing frame's fingertip lands exactly at pixel `(0, 0)`, the stored
previous point becomes the sentinel and the next Drawing frame re-seeds, so
its single segment is degenerate (the stroke is split); a stored previous
point with only one zero coordinate, such as `(0, 300)`, is still treated as
valid and the stroke extends from it. -/
theorem claim10_origin_sentinel (s : PainterState)
    (l lnext : List Landmark) (p8 p8n p12 p12n : Landmark)
    (f fn : List ℕ) (f1 f1n : ℕ)
    (h8 : l[8]? = some p8) (h12 : l[12]? = some p12)
    (hf : FingersUP l = some f) (h1 : f[1]? = some f1) (h2 : f[2]? = some 0)
    (ha : f1 ≠ 0)
    (h8n : lnext[8]? = some p8n) (h12n : lnext[12]? = some p12n)
    (hfn : FingersUP lnext = some fn) (h1n : fn[1]? = some f1n)
    (h2n : fn[2]? = some 0) (han : f1n ≠ 0)
    (htipx : p8.x = 0) (htipy : p8.y = 0) :
    (∀ s1 ops1, process_frame s l = some (s1, ops1) →
      s1.xp = 0 ∧ s1.yp = 0 ∧
      ∀ s2 ops2, process_frame s1 lnext = some (s2, ops2) →
        ∃ op, ops2 = [op] ∧ op.x1 = p8n.x ∧ op.y1 = p8n.y ∧
          op.x2 = p8n.x ∧ op.y2 = p8n.y) ∧
    (s.xp = 0 → s.yp = 300 →
      ∀ s2 ops2, process_frame s lnext = some (s2, ops2) →
        ∃ op, ops2 = [op] ∧ op.x1 = 0 ∧ op.y1 = 300 ∧
          op.x2 = p8n.x ∧ op.y2 = p8n.y) := by
  constructor
  · intro s1 ops1 hp1
    rw [process_frame_eq s l p8 p12 f f1 0 h8 h12 hf h1 h2,
        process_core_draw s p8 ha, Option.some.injEq, Prod.mk.injEq] at hp1
    obtain ⟨hs1, hops1⟩ := hp1
    subst hs1
    refine ⟨htipx, htipy, ?_⟩
    intro s2 ops2 hp2
    rw [process_frame_eq _ lnext p8n p12n fn f1n 0 h8n h12n hfn h1n h2n,
        process_core_draw _ p8n han, Option.some.injEq, Prod.mk.injEq] at hp2
    obtain ⟨hs2, hops2⟩ := hp2
    subst hops2
    simp only [htipx, htipy, and_self, if_true]
    exact ⟨_, rfl, rfl, rfl, rfl, rfl⟩
  · intro hx hy s2 ops2 hp2
    rw [process_frame_eq s lnext p8n p12n fn f1n 0 h8n h12n hfn h1n h2n,
        process_core_draw s p8n han, Option.some.injEq, Prod.mk.injEq] at hp2
    obtain ⟨hs2, hops2⟩ := hp2
    subst hops2
    have hcond : ¬(s.xp = 0 ∧ s.yp = 0) := by
      rw [hy]
      intro hh
      exact absurd hh.2 (by norm_num)
    refine ⟨_, rfl, ?_, ?_, rfl, rfl⟩
    · rw [if_neg hcond]
      exact hx
    · rw [if_neg hcond, if_neg hcond]
      exact hy

/-- C10 witness: a stroke through the exact pixel `(0, 0)` is split (the
next segment is degenerate at `(500, 500)`), while a stored previous point
`(0, 300)` still anchors the next segment. -/
theorem claim10_witness :
    (∃ op : LineOp, ([⟨500, 500, 500, 500, redPix, 8⟩] : List LineOp) = [op] ∧
      op.x1 = 500 ∧ op.y1 = 500 ∧ op.x2 = 500 ∧ op.y2 = 500) ∧
    (∃ op : LineOp, ([⟨0, 300, 500, 500, redPix, 8⟩] : List LineOp) = [op] ∧
      op.x1 = 0 ∧ op.y1 = 300 ∧ op.x2 = 500 ∧ op.y2 = 500) := by
  have H := claim10_origin_sentinel sY lmDraw00 lmDraw ⟨8, 0, 0⟩
    ⟨8, 500, 500⟩ ⟨12, 0, 0⟩ ⟨12, 0, 0⟩ [0, 1, 0, 0, 0] [0, 1, 0, 0, 0] 1 1
    rfl rfl rfl rfl rfl (by decide) rfl rfl rfl rfl rfl (by decide) rfl rfl
  exact ⟨(H.1 sY1 [⟨0, 300, 0, 0, redPix, 8⟩] rfl).2.2 sY2
      [⟨500, 500, 500, 500, redPix, 8⟩] rfl,
    H.2 rfl rfl sY2b [⟨0, 300, 500, 500, redPix, 8⟩] rfl⟩
